import Mathlib

/-!
Shallow embedding of `src/phredgenotypelikelihoods.cpp` from the whatshap
repository: the `PhredGenotypeLikelihoods` value class, an immutable
container of per-genotype Phred-scaled likelihood scores.

Modelling choices:
* The C++ class stores a `std::vector<double> gl`; the member is modelled
  as a Lean `List α` with the score type left as an opaque parameter `α`,
  since the class performs no arithmetic on the stored values (they are
  only stored, retrieved and rendered).
* `get` guards the access with `assert(genotype < gl.size())`; an
  assertion failure is a fatal contract violation, modelled by returning
  `none` (`some` models a normal return).
* `toString` streams each value through `operator<<`; the default textual
  rendering of a score is modelled by an explicit parameter
  `render : α → String`.
* The const methods contain no writes; their explicit state-passing forms
  (`getCall` and friends) pair the result with the receiver so that frame
  properties can be stated.
-/

structure PhredGenotypeLikelihoods (α : Type) where
  gl : List α
deriving DecidableEq

namespace PhredGenotypeLikelihoods

variable {α : Type}

/-- The constructor `PhredGenotypeLikelihoods(const vector<double>& gl) : gl(gl) {}`:
the member initializer copies the value of the argument into the member.
No validation of any kind is performed. -/
def construct (gl : List α) : PhredGenotypeLikelihoods α :=
  ⟨gl⟩

/-- `double get(size_t genotype) const`: asserts `genotype < gl.size()` and
returns `gl[genotype]`.  The assertion failure path is `none`. -/
def get (p : PhredGenotypeLikelihoods α) (genotype : Nat) : Option α :=
  if h : genotype < p.gl.length then some (p.gl.get ⟨genotype, h⟩) else none

/-- `const vector<double>& as_vector() const`: returns (a read-only view of)
the member `gl`. -/
def as_vector (p : PhredGenotypeLikelihoods α) : List α :=
  p.gl

/-- `size_t genotype_count() const`: returns `gl.size()`. -/
def genotype_count (p : PhredGenotypeLikelihoods α) : Nat :=
  p.gl.length

/-- `std::string toString() const`: streams the literal
`"PhredGenotypeLikelihoods( "`, then for each index `i` a comma when
`i > 0` followed by the rendering of `gl[i]`, then `")"` and `endl`. -/
def toString (render : α → String) (p : PhredGenotypeLikelihoods α) : String :=
  (p.gl.enum.foldl
    (fun acc iv => acc ++ (if iv.1 > 0 then "," else "") ++ render iv.2)
    "PhredGenotypeLikelihoods( ") ++ ")" ++ "\n"

/-- Comma-separated rendering of the scores in index order, with no space
after the comma: the body of the diagnostic string as the spec describes it. -/
def renderedScores (render : α → String) : List α → String
  | [] => ""
  | [v] => render v
  | v :: w :: vs => render v ++ "," ++ renderedScores render (w :: vs)

/-- Rendering of every element after the first: each one preceded by a comma. -/
def tailRendered (render : α → String) : List α → String
  | [] => ""
  | v :: vs => "," ++ render v ++ tailRendered render vs

/-- A caller environment: the mutable buffer owned by the caller together
with the instance that was constructed from it. -/
structure Session (α : Type) where
  callerBuf : List α
  inst : PhredGenotypeLikelihoods α

/-- Construction from the caller buffer.  The member initializer `gl(gl)`
copies the value, so the instance stores the buffer value at construction
time, not a reference into the caller buffer. -/
def startSession (buf : List α) : Session α :=
  ⟨buf, construct buf⟩

/-- The caller later overwrites its own buffer.  The instance member is a
distinct copied object, so only `callerBuf` changes. -/
def mutateCaller (s : Session α) (newBuf : List α) : Session α :=
  ⟨newBuf, s.inst⟩

/-- Explicit state-passing form of the const method `get`: the body only
reads the member, so it returns the receiver unchanged beside the result. -/
def getCall (p : PhredGenotypeLikelihoods α) (genotype : Nat) :
    Option α × PhredGenotypeLikelihoods α :=
  (p.get genotype, p)

/-- Explicit state-passing form of the const method `as_vector`. -/
def asVectorCall (p : PhredGenotypeLikelihoods α) :
    List α × PhredGenotypeLikelihoods α :=
  (p.as_vector, p)

/-- Explicit state-passing form of the const method `genotype_count`. -/
def genotypeCountCall (p : PhredGenotypeLikelihoods α) :
    Nat × PhredGenotypeLikelihoods α :=
  (p.genotype_count, p)

/-- Explicit state-passing form of the const method `toString`. -/
def toStringCall (render : α → String) (p : PhredGenotypeLikelihoods α) :
    String × PhredGenotypeLikelihoods α :=
  (toString render p, p)

theorem renderedScores_cons (render : α → String) (v : α) (vs : List α) :
    renderedScores render (v :: vs) = render v ++ tailRendered render vs := by
  induction vs generalizing v with
  | nil => simp [renderedScores, tailRendered, String.append_empty]
  | cons w ws ih =>
      rw [renderedScores, tailRendered, ih w]
      simp [String.append_assoc]

/-- The loop of `toString`, started at any strictly positive index, appends
a comma before every rendered value. -/
theorem foldl_enumFrom_toString (render : α → String) (xs : List α) :
    ∀ (n : Nat) (acc : String), 0 < n →
    (xs.enumFrom n).foldl
        (fun acc iv => acc ++ (if iv.1 > 0 then "," else "") ++ render iv.2)
        acc
      = acc ++ tailRendered render xs := by
  induction xs with
  | nil => intro n acc _; simp [tailRendered, String.append_empty]
  | cons x xs ih =>
      intro n acc hn
      show List.foldl _ _ ((n, x) :: xs.enumFrom (n + 1)) = _
      rw [List.foldl_cons]
      have hcomma : (if n > 0 then "," else "") = "," := if_pos hn
      rw [hcomma] at *
      rw [ih (n + 1) _ (Nat.succ_pos n), tailRendered]
      simp [String.append_assoc]

/-- Characterization of `toString`: prefix literal, comma-separated rendered
scores in index order, closing parenthesis, newline. -/
theorem toString_eq (render : α → String) (gl : List α) :
    toString render (construct gl) =
      "PhredGenotypeLikelihoods( " ++ renderedScores render gl ++ ")" ++ "\n" := by
  cases gl with
  | nil => simp [toString, construct, renderedScores, List.enum, String.append_empty]
  | cons x xs =>
      rw [toString, renderedScores_cons]
      show (List.foldl _ _ ((0, x) :: xs.enumFrom 1)) ++ ")" ++ "\n" = _
      rw [List.foldl_cons]
      have h0 : (if (0 : Nat) > 0 then "," else "") = "" := rfl
      rw [h0, String.append_empty,
        foldl_enumFrom_toString render xs 1 _ Nat.one_pos]
      simp [String.append_assoc]

end PhredGenotypeLikelihoods

open PhredGenotypeLikelihoods

variable {α : Type}

/-- C1: for every sequence S and every index i with i < len(S), constructing
an instance from S and calling get(i) returns exactly S[i], with no
transformation and no side effects. -/
theorem c1_get_returns_element (gl : List α) (i : Nat) (h : i < gl.length) :
    (construct gl).get i = some (gl.get ⟨i, h⟩) := by
  unfold construct PhredGenotypeLikelihoods.get
  exact dif_pos h

/-- Witness for C1 at S = [1, 2, 3] and i = 1. -/
theorem c1_witness :
    1 < [(1 : ℤ), 2, 3].length ∧ (construct [(1 : ℤ), 2, 3]).get 1 = some 2 :=
  ⟨by decide, by rw [c1_get_returns_element [(1 : ℤ), 2, 3] 1 (by decide)]; rfl⟩

/-- C2: for every finite sequence S, including the empty one, the instance
constructed from S has genotype_count equal to len(S). -/
theorem c2_genotype_count (gl : List α) :
    (construct gl).genotype_count = gl.length :=
  rfl

/-- C3 counterexample: at S = [1, 2], the code produces the prefix
"PhredGenotypeLikelihoods( ", not "GenotypeLikelihoods( " as the claim
states, so the claimed string is not the output. -/
theorem c3_counterexample :
    PhredGenotypeLikelihoods.toString Nat.repr (construct [1, 2]) ≠
      "GenotypeLikelihoods( 1,2)\n" := by
  decide

/-- C3 amended: toString returns exactly "PhredGenotypeLikelihoods( "
followed by the renderings of v0..vN in index order, comma-separated with
no space after the comma, then ")" and a trailing newline. -/
theorem c3_toString_form (render : α → String) (gl : List α) :
    PhredGenotypeLikelihoods.toString render (construct gl) =
      "PhredGenotypeLikelihoods( " ++ renderedScores render gl ++ ")" ++ "\n" :=
  toString_eq render gl

/-- C4: for every sequence S and every index i with i ≥ len(S), get(i) hits
the assertion (the fatal OutOfRange contract failure, modelled as none) and
never returns a normal value. -/
theorem c4_get_out_of_range (gl : List α) (i : Nat) (h : gl.length ≤ i) :
    (construct gl).get i = none := by
  have hnot : ¬ i < gl.length := by omega
  unfold construct PhredGenotypeLikelihoods.get
  exact dif_neg hnot

/-- Witness for C4 at S = [5.5] and i = 1. -/
theorem c4_witness :
    [(5.5 : ℚ)].length ≤ 1 ∧ (construct [(5.5 : ℚ)]).get 1 = none :=
  ⟨by decide, c4_get_out_of_range [(5.5 : ℚ)] 1 (by decide)⟩

/-- C5: as_vector on the instance constructed from S yields exactly S, in
order. -/
theorem c5_as_vector (gl : List α) :
    (construct gl).as_vector = gl :=
  rfl

/-- C6: after construction from the caller buffer, overwriting the caller
buffer with any new contents changes none of the accessor results of the
instance — copy-in isolation. -/
theorem c6_copy_in_isolation (buf newBuf : List α) (i : Nat) (render : α → String) :
    ((mutateCaller (startSession buf) newBuf).inst).get i = (construct buf).get i ∧
    ((mutateCaller (startSession buf) newBuf).inst).as_vector = buf ∧
    ((mutateCaller (startSession buf) newBuf).inst).genotype_count = buf.length ∧
    PhredGenotypeLikelihoods.toString render ((mutateCaller (startSession buf) newBuf).inst) =
      PhredGenotypeLikelihoods.toString render (construct buf) :=
  ⟨rfl, rfl, rfl, rfl⟩

/-- C7 counterexample: for S = [], toString produces
"PhredGenotypeLikelihoods( )\n", not "GenotypeLikelihoods( )\n" as the
claim states. -/
theorem c7_counterexample :
    ¬ ((construct ([] : List Nat)).genotype_count = 0 ∧
      PhredGenotypeLikelihoods.toString Nat.repr (construct ([] : List Nat)) =
        "GenotypeLikelihoods( )\n") := by
  decide

/-- C7 amended: for the empty sequence, genotype_count is 0 and toString
returns exactly "PhredGenotypeLikelihoods( )\n". -/
theorem c7_empty_sequence (render : α → String) :
    (construct ([] : List α)).genotype_count = 0 ∧
    PhredGenotypeLikelihoods.toString render (construct ([] : List α)) =
      "PhredGenotypeLikelihoods( )\n" := by
  refine ⟨rfl, ?_⟩
  rw [toString_eq]
  rfl

/-- C8: construction succeeds on every sequence (including the empty one)
with no validation, storing the input as given, and as_vector,
genotype_count and toString are total with fully determined results on
every constructed instance. -/
theorem c8_totality (render : α → String) (gl : List α) :
    (construct gl).as_vector = gl ∧
    (construct gl).genotype_count = gl.length ∧
    PhredGenotypeLikelihoods.toString render (construct gl) =
      "PhredGenotypeLikelihoods( " ++ renderedScores render gl ++ ")" ++ "\n" :=
  ⟨rfl, rfl, toString_eq render gl⟩

/-- C9: every operation, run in explicit state-passing form, returns the
receiver with the stored sequence unchanged in length and contents. -/
theorem c9_immutability (p : PhredGenotypeLikelihoods α) (i : Nat) (render : α → String) :
    (p.getCall i).2.gl = p.gl ∧
    (p.asVectorCall).2.gl = p.gl ∧
    (p.genotypeCountCall).2.gl = p.gl ∧
    (p.toStringCall render).2.gl = p.gl :=
  ⟨rfl, rfl, rfl, rfl⟩

/-- C10: genotype_count equals the length of the sequence returned by
as_vector, and for every i below the count, get i returns the i-th element
of that sequence. -/
theorem c10_accessor_consistency (p : PhredGenotypeLikelihoods α) (i : Nat)
    (h : i < p.genotype_count) :
    p.genotype_count = p.as_vector.length ∧
    p.get i = some (p.as_vector.get ⟨i, h⟩) := by
  refine ⟨rfl, ?_⟩
  unfold PhredGenotypeLikelihoods.get as_vector
  exact dif_pos h

/-- Witness for C10 at the instance constructed from [1, 2, 3] and i = 1. -/
theorem c10_witness :
    1 < (construct [(1 : ℤ), 2, 3]).genotype_count ∧
    ((construct [(1 : ℤ), 2, 3]).genotype_count =
        (construct [(1 : ℤ), 2, 3]).as_vector.length ∧
      (construct [(1 : ℤ), 2, 3]).get 1 =
        some ((construct [(1 : ℤ), 2, 3]).as_vector.get ⟨1, by decide⟩)) :=
  ⟨by decide, c10_accessor_consistency (construct [(1 : ℤ), 2, 3]) 1 (by decide)⟩
